import Mathlib

/-!
Verification of smoldot's SCALE compact codec (`src/util.rs`), GRANDPA warp-sync
state machine (`src/sync/grandpa_warp_sync.rs`) and runtime service
(`bin/wasm-node/rust/src/runtime_service.rs`) against their specification.

Bytes are modelled as `Nat` values (expected `< 256`); `usize` is modelled as a
64-bit machine integer with Rust release-build semantics: the shift amount of
`<<` is reduced modulo the bit width, exactly as `wrapping_shl` does when
overflow checks are disabled.
-/

/-- Parse-error tags of `nom_scale_compact_usize`: `nom::error::ErrorKind::Eof`
and `nom::error::ErrorKind::Satisfy`. -/
inductive ErrTag where
  | Eof
  | Satisfy
deriving DecidableEq, Repr

/-- Result of running the decoder: success with the remaining input and decoded
value, a parse error, or a trap (an out-of-bounds slice index, which in Rust
would be a panic; proved unreachable). -/
inductive ScaleResult where
  | ok (rem : List Nat) (value : Nat)
  | err (tag : ErrTag)
  | trap
deriving DecidableEq, Repr

/-- Outcome of the big-integer accumulation loop of `nom_scale_compact_usize`:
the accumulated value, a `checked_mul` overflow, or an out-of-bounds index. -/
inductive BigLoopOut where
  | val (v : Nat)
  | overflow
  | oob
deriving DecidableEq, Repr

/-- The `for byte_index in 1..=num_bytes` loop of `nom_scale_compact_usize`
(mode `0b11`): folds `out_value |= bytes[byte_index].checked_mul(1 << shift)`.
`1 << shift` is `2 ^ (shift % 64)` (release semantics mask the shift amount);
`checked_mul` fails when the product does not fit a 64-bit `usize`. -/
def scaleBigLoop (bytes : List Nat) : Nat → Nat → Nat → Nat → BigLoopOut
  | _, _, acc, 0 => .val acc
  | idx, shift, acc, count + 1 =>
    match bytes.get? idx with
    | none => .oob
    | some b =>
      let prod := b * 2 ^ (shift % 64)
      if prod < 2 ^ 64 then scaleBigLoop bytes (idx + 1) (shift + 8) (acc ||| prod) count
      else .overflow

/-- Embedding of `nom_scale_compact_usize` (src/util.rs lines 75-168), the
SCALE-compact decoder for `usize` (64-bit). The two low bits of the first byte
select the mode; mode `0b11` declares `(bytes[0] >> 2) + 4` little-endian value
bytes whose most significant byte must be non-zero. -/
def nom_scale_compact_usize (bytes : List Nat) : ScaleResult :=
  match bytes.get? 0 with
  | none => .err .Eof
  | some b0 =>
    match b0 % 4 with
    | 0 => .ok (bytes.drop 1) (b0 / 4)
    | 1 =>
      if bytes.length < 2 then .err .Eof
      else
        match bytes.get? 1 with
        | none => .trap
        | some b1 => .ok (bytes.drop 2) ((b1 <<< 6) ||| (b0 / 4))
    | 2 =>
      if bytes.length < 4 then .err .Eof
      else
        match bytes.get? 1, bytes.get? 2, bytes.get? 3 with
        | some b1, some b2, some b3 =>
          let value := (b3 <<< 22) ||| (b2 <<< 14) ||| (b1 <<< 6) ||| (b0 / 4)
          -- `usize::try_from(u32)`: only fails when the value exceeds `usize`.
          if value < 2 ^ 64 then .ok (bytes.drop 4) value else .err .Satisfy
        | _, _, _ => .trap
    | 3 =>
      let num_bytes := b0 / 4 + 4
      if bytes.length < num_bytes + 1 then .err .Eof
      else
        match bytes.get? num_bytes with
        | none => .trap
        | some hb =>
          -- Value is invalid if highest byte is 0.
          if hb = 0 then .err .Satisfy
          else
            match scaleBigLoop bytes 1 0 0 num_bytes with
            | .val v => .ok (bytes.drop (num_bytes + 1)) v
            | .overflow => .err .Satisfy
            | .oob => .trap
    | _ + 4 => .trap

/-- The `while value != 0 { push(value & 0xff); value >>= 8 }` loop of
`encode_scale_compact_usize`: little-endian bytes of a value. The first
argument is fuel (the value itself suffices, the value strictly decreases). -/
def leBytesAux : Nat → Nat → List Nat
  | _, 0 => []
  | 0, _ + 1 => []
  | fuel + 1, v + 1 => ((v + 1) % 256) :: leBytesAux fuel ((v + 1) / 256)

/-- Little-endian byte expansion of a non-negative value, empty for `0`. -/
def leBytes (v : Nat) : List Nat :=
  leBytesAux v v

/-- Embedding of `encode_scale_compact_usize` (src/util.rs lines 171-196). -/
def encode_scale_compact_usize (value : Nat) : List Nat :=
  if value < 64 then [value <<< 2]
  else if value < 2 ^ 14 then
    [((value % 64) <<< 2) ||| 1, (value >>> 6) % 256]
  else if value < 2 ^ 30 then
    [((value % 64) <<< 2) ||| 2, (value >>> 6) % 256, (value >>> 14) % 256,
      (value >>> 22) % 256]
  else
    let le := leBytes value
    -- array[0] = ((array.len() - 1 - 4) << 2) | 0b11, array.len() = le.length + 1
    (((le.length - 4) <<< 2) ||| 3) :: le

/-!
GRANDPA warp-sync state machine (`src/sync/grandpa_warp_sync.rs`).

Opaque foreign types are modelled as `Nat`: source user data (`TSrc`), block
headers (`header::Header`), finality descriptions
(`ChainInformationFinality`), warp-sync fragments and fragment errors
(`warp_sync::Error`). The machine never inspects them.
-/

/-- Opaque block header (`header::Header`). -/
abbrev Header := Nat

/-- Opaque finality description (`ChainInformationFinality`). -/
abbrev Finality := Nat

/-- Opaque warp-sync fragment. -/
abbrev Fragment := Nat

/-- Opaque fragment-verification error (`warp_sync::Error`). -/
abbrev FragmentError := Nat

/-- `ValidChainInformation`, reduced to the one field the warp-sync machine
reads from it: the finality description used to seed the first verifier. -/
structure ValidChainInformation where
  finality : Finality
deriving DecidableEq, Repr

/-- A warp-sync source: opaque user data plus the `already_tried` flag. -/
structure Source where
  user_data : Nat
  already_tried : Bool
deriving DecidableEq, Repr

/-- `slab::Slab<Source>`: a slot-indexed table, `none` marking a vacant slot.
The slot index is the `SourceId`. -/
abbrev Slab := List (Option Source)

/-- Occupied-slot lookup by index (`slab` indexing). -/
def slabGet : Slab → Nat → Option Source
  | [], _ => none
  | e :: _, 0 => e
  | _ :: rest, i + 1 => slabGet rest i

/-- `Slab::contains`. -/
def slabContains (s : Slab) (i : Nat) : Bool :=
  (slabGet s i).isSome

/-- `Slab::insert`: place the entry in a vacant slot (else append) and return
the new slab together with the key of the inserted entry. -/
def slabInsert : Slab → Source → Slab × Nat
  | [], x => ([some x], 0)
  | none :: rest, x => (some x :: rest, 0)
  | some y :: rest, x =>
    let (s, i) := slabInsert rest x
    (some y :: s, i + 1)

/-- `Slab::remove`: vacate the slot, returning the removed entry (the Rust
version panics when the slot is vacant; callers `debug_assert!` occupancy). -/
def slabRemove : Slab → Nat → Slab × Option Source
  | [], _ => ([], none)
  | e :: rest, 0 => (none :: rest, e)
  | e :: rest, i + 1 =>
    let (s, r) := slabRemove rest i
    (e :: s, r)

/-- `sources[id].already_tried = true`: mark one source as tried. -/
def slabMarkTried : Slab → Nat → Slab
  | [], _ => []
  | e :: rest, 0 => (e.map fun s => { s with already_tried := true }) :: rest
  | e :: rest, i + 1 => e :: slabMarkTried rest i

/-- `sources.iter().find(|(_, s)| !s.already_tried)`: index of the first (in
slot order, as `Slab::iter` iterates) source not yet tried. -/
def slabFindUntried : Slab → Option Nat
  | [] => none
  | some s :: rest =>
    if s.already_tried then (slabFindUntried rest).map (· + 1) else some 0
  | none :: rest => (slabFindUntried rest).map (· + 1)

/-- Every occupied slot has `already_tried = true`. -/
def slabAllTried (s : Slab) : Bool :=
  s.all fun e =>
    match e with
    | none => true
    | some src => src.already_tried

/-- `warp_sync::Verifier` (module `finality::grandpa::warp_sync`, external to
this repository): modelled as a record of the arguments given to
`Verifier::new` — the seeding finality state, the fragment list and the
`is_finished` flag. Its verification step is not modelled; `VerifierState.next`
takes the step's outcome as a parameter. -/
structure InnerVerifier where
  seed : Finality
  fragments : List Fragment
  finalSet : Bool
deriving DecidableEq, Repr

/-- `warp_sync::Verifier::new`. -/
def InnerVerifier.new (seed : Finality) (fragments : List Fragment)
    (finalSet : Bool) : InnerVerifier :=
  ⟨seed, fragments, finalSet⟩

/-- Outcome of `warp_sync::Verifier::next` when it does not fail:
`Next::NotFinished` carrying the advanced verifier, or `Next::Success`
carrying the verified header and finality. -/
inductive InnerNext where
  | notFinished (next : InnerVerifier)
  | success (header : Header) (chain_information_finality : Finality)
deriving DecidableEq, Repr

/-- `PreVerificationState`: just the trusted anchor. -/
structure PreVerificationState where
  start_chain_information : ValidChainInformation
deriving DecidableEq, Repr

/-- `PostVerificationState`: anchor, verified target header, derived finality,
sources and the id of the source that delivered the accepted batch. -/
structure PostVerificationState where
  header : Header
  chain_information_finality : Finality
  start_chain_information : ValidChainInformation
  sources : Slab
  warp_sync_source_id : Nat
deriving DecidableEq, Repr

/-- The `Verifier<TSrc>` pause-point state. -/
structure VerifierState where
  verifier : InnerVerifier
  state : PreVerificationState
  warp_sync_source_id : Nat
  sources : Slab
  final_set_of_fragments : Bool
  previous_verifier_values : Option (Header × Finality)
deriving DecidableEq, Repr

/-- The `WarpSyncRequest<TSrc>` pause-point state. -/
structure WarpSyncRequestState where
  source_id : Nat
  sources : Slab
  state : PreVerificationState
  previous_verifier_values : Option (Header × Finality)
deriving DecidableEq, Repr

/-- The `WaitingForSources<TSrc>` pause-point state. -/
structure WaitingForSourcesState where
  sources : Slab
  state : PreVerificationState
  previous_verifier_values : Option (Header × Finality)
deriving DecidableEq, Repr

/-- The `VirtualMachineParamsGet<TSrc>` pause-point state. -/
structure VirtualMachineParamsGetState where
  state : PostVerificationState
deriving DecidableEq, Repr

/-- The `StorageGet<TSrc>` pause-point state; the inner
`babe_fetch_epoch::StorageGet` and the fetched epoch are opaque. -/
structure StorageGetState where
  inner : Nat
  fetched_current_epoch : Option Nat
  state : PostVerificationState
deriving DecidableEq, Repr

/-- The `NextKey<TSrc>` pause-point state; the inner
`babe_fetch_epoch::NextKey` and the fetched epoch are opaque. -/
structure NextKeyState where
  inner : Nat
  fetched_current_epoch : Option Nat
  state : PostVerificationState
deriving DecidableEq, Repr

/-- The `InProgressGrandpaWarpSync<TSrc>` tagged union. -/
inductive InProgressGrandpaWarpSync where
  | StorageGet (storage_get : StorageGetState)
  | NextKey (next_key : NextKeyState)
  | Verifier (verifier : VerifierState)
  | WarpSyncRequest (warp_sync_request : WarpSyncRequestState)
  | VirtualMachineParamsGet (params_get : VirtualMachineParamsGetState)
  | WaitingForSources (waiting : WaitingForSourcesState)
deriving DecidableEq, Repr

/-- `InProgressGrandpaWarpSync::warp_sync_request_from_next_source` (lines
372-396): select the first untried source, else park in `WaitingForSources`. -/
def warp_sync_request_from_next_source (sources : Slab)
    (state : PreVerificationState)
    (previous_verifier_values : Option (Header × Finality)) :
    InProgressGrandpaWarpSync :=
  match slabFindUntried sources with
  | some next_id => .WarpSyncRequest ⟨next_id, sources, state, previous_verifier_values⟩
  | none => .WaitingForSources ⟨sources, state, previous_verifier_values⟩

/-- `GrandpaWarpSyncResponse`: fragments plus the `is_finished` flag. -/
structure GrandpaWarpSyncResponse where
  fragments : List Fragment
  is_finished : Bool
deriving DecidableEq, Repr

/-- `WarpSyncRequest::handle_response` (lines 764-806). -/
def WarpSyncRequestState.handle_response (self : WarpSyncRequestState)
    (response : Option GrandpaWarpSyncResponse) : InProgressGrandpaWarpSync :=
  let sources := slabMarkTried self.sources self.source_id
  match response with
  | some response =>
    let final_set_of_fragments := response.is_finished
    let verifier :=
      match self.previous_verifier_values with
      | some (_, chain_information_finality) =>
        InnerVerifier.new chain_information_finality response.fragments
          final_set_of_fragments
      | none =>
        InnerVerifier.new self.state.start_chain_information.finality
          response.fragments final_set_of_fragments
    .Verifier ⟨verifier, self.state, self.source_id, sources,
      final_set_of_fragments, self.previous_verifier_values⟩
  | none =>
    warp_sync_request_from_next_source sources self.state
      self.previous_verifier_values

/-- `Verifier::next` (lines 608-661). The outcome of the inner
`warp_sync::Verifier::next` call (external code) is passed as a parameter. -/
def VerifierState.next (self : VerifierState)
    (inner_result : Except FragmentError InnerNext) :
    InProgressGrandpaWarpSync × Option FragmentError :=
  match inner_result with
  | .ok (.notFinished next_verifier) =>
    (.Verifier { self with verifier := next_verifier }, none)
  | .ok (.success header chain_information_finality) =>
    if self.final_set_of_fragments then
      (.VirtualMachineParamsGet ⟨⟨header, chain_information_finality,
        self.state.start_chain_information, self.sources,
        self.warp_sync_source_id⟩⟩, none)
    else
      (.WarpSyncRequest ⟨self.warp_sync_source_id, self.sources, self.state,
        some (header, chain_information_finality)⟩, none)
  | .error error =>
    (warp_sync_request_from_next_source self.sources self.state
      self.previous_verifier_values, some error)

/-- `WaitingForSources::add_source` (lines 925-939). -/
def WaitingForSourcesState.add_source (self : WaitingForSourcesState)
    (user_data : Nat) : WarpSyncRequestState :=
  let inserted := slabInsert self.sources ⟨user_data, false⟩
  ⟨inserted.2, inserted.1, self.state, self.previous_verifier_values⟩

/-- `Verifier::remove_source` (lines 590-605). -/
def VerifierState.remove_source (self : VerifierState) (to_remove : Nat) :
    Option Nat × InProgressGrandpaWarpSync :=
  let removal := slabRemove self.sources to_remove
  let removed := removal.2.map Source.user_data
  if to_remove = self.warp_sync_source_id then
    (removed, warp_sync_request_from_next_source removal.1 self.state
      self.previous_verifier_values)
  else
    (removed, .Verifier { self with sources := removal.1 })

/-- `WarpSyncRequest::remove_source` (lines 747-762). -/
def WarpSyncRequestState.remove_source (self : WarpSyncRequestState)
    (to_remove : Nat) : Option Nat × InProgressGrandpaWarpSync :=
  let removal := slabRemove self.sources to_remove
  let removed := removal.2.map Source.user_data
  if to_remove = self.source_id then
    (removed, warp_sync_request_from_next_source removal.1 self.state
      self.previous_verifier_values)
  else
    (removed, .WarpSyncRequest { self with sources := removal.1 })

/-- `WaitingForSources::remove_source` (lines 947-951). -/
def WaitingForSourcesState.remove_source (self : WaitingForSourcesState)
    (to_remove : Nat) : Option Nat × InProgressGrandpaWarpSync :=
  let removal := slabRemove self.sources to_remove
  (removal.2.map Source.user_data,
    .WaitingForSources { self with sources := removal.1 })

/-- `StateRemoveSourceResult`. -/
inductive StateRemoveSourceResult where
  | RemovedCurrent (warp_sync : InProgressGrandpaWarpSync)
  | RemovedOther (state : PostVerificationState)
deriving DecidableEq, Repr

/-- `PostVerificationState::remove_source` (lines 677-698): losing the source
that delivered the verified batch restarts source selection with
`previous_verifier_values` set to `None`. -/
def PostVerificationState.remove_source (self : PostVerificationState)
    (to_remove : Nat) : Option Nat × StateRemoveSourceResult :=
  let removal := slabRemove self.sources to_remove
  let removed := removal.2.map Source.user_data
  if to_remove = self.warp_sync_source_id then
    (removed, .RemovedCurrent (warp_sync_request_from_next_source removal.1
      ⟨self.start_chain_information⟩ none))
  else
    (removed, .RemovedOther { self with sources := removal.1 })

/-- `InProgressGrandpaWarpSync::remove_source` (lines 404-445). -/
def InProgressGrandpaWarpSync.remove_source
    (self : InProgressGrandpaWarpSync) (to_remove : Nat) :
    Option Nat × InProgressGrandpaWarpSync :=
  match self with
  | .WaitingForSources waiting => waiting.remove_source to_remove
  | .WarpSyncRequest warp_sync_request => warp_sync_request.remove_source to_remove
  | .Verifier verifier => verifier.remove_source to_remove
  | .VirtualMachineParamsGet params_get =>
    let result := params_get.state.remove_source to_remove
    match result.2 with
    | .RemovedOther state => (result.1, .VirtualMachineParamsGet ⟨state⟩)
    | .RemovedCurrent warp_sync => (result.1, warp_sync)
  | .StorageGet storage_get =>
    let result := storage_get.state.remove_source to_remove
    match result.2 with
    | .RemovedOther state => (result.1, .StorageGet { storage_get with state := state })
    | .RemovedCurrent warp_sync => (result.1, warp_sync)
  | .NextKey next_key =>
    let result := next_key.state.remove_source to_remove
    match result.2 with
    | .RemovedOther state => (result.1, .NextKey { next_key with state := state })
    | .RemovedCurrent warp_sync => (result.1, warp_sync)

/-- The `previous_verifier_values` carried by a source-selection result, for
the two states `warp_sync_request_from_next_source` can produce. -/
def stateCarriesPreviousValues : InProgressGrandpaWarpSync →
    Option (Header × Finality) → Prop
  | .WarpSyncRequest r, pv => r.previous_verifier_values = pv
  | .WaitingForSources w, pv => w.previous_verifier_values = pv
  | _, _ => False

/-!
Runtime service (`bin/wasm-node/rust/src/runtime_service.rs`).

VM prototypes (`HostVmPrototype`), runtime spec values, storage keys and
error details are opaque `Nat`s. The external executor
(`read_only_runtime_host`) and proof verifier (`proof_verify::verify_proof`)
are supplied to the embedded functions as parameters: a call's VM behaviour
is the list of intermediate events it emits followed by its final outcome.
-/

/-- `SuccessfulRuntime` (runtime_service.rs lines 616-643). -/
structure SuccessfulRuntime where
  metadata : Option (List Nat)
  runtime_spec : Nat
  virtual_machine : Option Nat
deriving DecidableEq, Repr

/-- `LatestKnownRuntime` (lines 580-614); subscription senders are channel
ids. `runtime` is `Result<SuccessfulRuntime, ()>`. -/
structure LatestKnownRuntime where
  runtime : Except Unit SuccessfulRuntime
  runtime_code : Option (List Nat)
  heap_pages : Option (List Nat)
  runtime_block_hash : Nat
  runtime_block_height : Nat
  runtime_block_state_root : Nat
  runtime_version_subscriptions : List Nat
  best_blocks_subscriptions : List Nat
  best_near_head_of_chain : Bool
deriving Repr

/-- An intermediate event emitted by the read-only runtime host while driving
a call: a storage read (with the prototype that `into_prototype()` would
yield if the call is abandoned at that point) or a storage-root request. -/
inductive VmEvent where
  | storageGet (key : Nat) (paused_prototype : Nat)
  | storageRoot
deriving DecidableEq, Repr

/-- Final outcome of the read-only runtime host: success or error (each
yielding back a prototype), or a `NextKey` request (`todo!()` in the code). -/
inductive VmOutcome where
  | finishedOk (return_value : Nat) (prototype : Nat)
  | finishedErr (detail : Nat) (prototype : Nat)
  | nextKey
deriving DecidableEq, Repr

/-- Result of the locked section of `recent_best_block_runtime_call_inner`. -/
inductive CallResult where
  | ok (return_value : Nat)
  | startError (err : Nat)
  | callError (detail : Nat)
  | storageRetrieval (err : Nat)
  | todoNextKey
  | noVmTaken
deriving DecidableEq, Repr

/-- The `loop { match runtime_call { ... } }` of
`recent_best_block_runtime_call_inner` (lines 402-450): drive the VM through
its events; a `StorageGet` whose proof verification fails restores the paused
prototype and exits with `StorageRetrieval`; `Finished` restores the final
prototype; `NextKey` is `todo!()`. `verify` maps a requested key to the
`proof_verify::verify_proof` result. -/
def runtimeCallLoop (runtime : SuccessfulRuntime)
    (verify : Nat → Except Nat (Option Nat)) :
    List VmEvent → VmOutcome → SuccessfulRuntime × CallResult
  | [], outcome =>
    match outcome with
    | .finishedOk return_value prototype =>
      ({ runtime with virtual_machine := some prototype }, .ok return_value)
    | .finishedErr detail prototype =>
      ({ runtime with virtual_machine := some prototype }, .callError detail)
    | .nextKey => (runtime, .todoNextKey)
  | .storageGet key paused_prototype :: rest, outcome =>
    match verify key with
    | .ok _ => runtimeCallLoop runtime verify rest outcome
    | .error err =>
      ({ runtime with virtual_machine := some paused_prototype },
        .storageRetrieval err)
  | .storageRoot :: rest, outcome => runtimeCallLoop runtime verify rest outcome

/-- The section of `recent_best_block_runtime_call_inner` (lines 387-450)
executed under the cache lock once the spec-version check has passed: take
the VM prototype out of the cache slot
(`runtime.virtual_machine.take().unwrap()`), start the call
(`read_only_runtime_host::run`, outcome supplied as the `start` parameter:
an error restores the returned prototype immediately) and drive the VM. -/
def recent_best_block_runtime_call_locked (runtime : SuccessfulRuntime)
    (start : Except (Nat × Nat) (List VmEvent × VmOutcome))
    (verify : Nat → Except Nat (Option Nat)) : SuccessfulRuntime × CallResult :=
  match runtime.virtual_machine with
  | none => (runtime, .noVmTaken)
  | some _ =>
    let runtime := { runtime with virtual_machine := none }
    match start with
    | .error (err, prototype) =>
      ({ runtime with virtual_machine := some prototype }, .startError err)
    | .ok (events, outcome) => runtimeCallLoop runtime verify events outcome

/-- A decoded best-block header, as used by the tracking loop: its hash,
number and state root. -/
structure HeaderInfo where
  hash : Nat
  number : Nat
  state_root : Nat
deriving DecidableEq, Repr

/-- Observable effects of one iteration of the tracking loop: the updated
cache, the updated `runtime_matches_best_block` flag, and the subscribers
that were sent a best-block item and a runtime-version item. -/
structure IterationOutput where
  state : LatestKnownRuntime
  runtime_matches_best_block : Bool
  best_block_notifications : List Nat
  runtime_version_notifications : List Nat
deriving Repr

/-- One iteration of the tracking loop of `start_background_task` (lines
753-852), from the point where the cache is locked: notify best-header
subscribers (pruning closed channels, `send_ok` telling which sends
succeed; the source's swap_remove scheme permutes the retained senders but
keeps the same set), update `best_near_head_of_chain`; on storage-query
failure `continue`; otherwise update the `runtime_block_*` fields, and only
when `:code` or `:heappages` changed rebuild the runtime (`from_params`,
external compilation supplied as a parameter) and notify runtime-version
subscribers. -/
def trackingLoopIteration (lkr : LatestKnownRuntime)
    (runtime_matches_best_block : Bool) (hdr : HeaderInfo)
    (code_query_result : Except Nat (Option (List Nat) × Option (List Nat)))
    (best_near_head : Bool) (send_ok : Nat → Bool)
    (from_params : Option (List Nat) → Option (List Nat) →
      Except Unit SuccessfulRuntime) : IterationOutput :=
  let kept_best := lkr.best_blocks_subscriptions.filter send_ok
  let lkr := { lkr with
    best_blocks_subscriptions := kept_best
    best_near_head_of_chain := best_near_head }
  match code_query_result with
  | .error _ =>
    -- Log and `continue` without touching the `runtime_*` fields.
    ⟨lkr, runtime_matches_best_block, kept_best, []⟩
  | .ok (new_code, new_heap_pages) =>
    -- `runtime_block_hash` is always updated.
    let lkr := { lkr with
      runtime_block_hash := hdr.hash
      runtime_block_height := hdr.number
      runtime_block_state_root := hdr.state_root }
    if new_code = lkr.runtime_code ∧ new_heap_pages = lkr.heap_pages then
      ⟨lkr, true, kept_best, []⟩
    else
      let lkr := { lkr with
        runtime_code := new_code
        heap_pages := new_heap_pages
        runtime := from_params new_code new_heap_pages }
      let kept_rv := lkr.runtime_version_subscriptions.filter send_ok
      ⟨{ lkr with runtime_version_subscriptions := kept_rv }, true, kept_best,
        kept_rv⟩

/-! Helper lemmas. -/

/-- If every source is marked tried, the untried-source scan finds nothing. -/
theorem slabFindUntried_of_allTried (s : Slab) (h : slabAllTried s = true) :
    slabFindUntried s = none := by
  induction s with
  | nil => rfl
  | cons e rest ih =>
    cases e with
    | none =>
      simp only [slabAllTried, List.all_cons, Bool.and_eq_true] at h
      simp [slabFindUntried, ih h.2]
    | some src =>
      simp only [slabAllTried, List.all_cons, Bool.and_eq_true] at h
      simp [slabFindUntried, h.1, ih h.2]

/-- Looking up the key returned by `slabInsert` yields the inserted entry. -/
theorem slabGet_slabInsert (s : Slab) (x : Source) :
    slabGet (slabInsert s x).1 (slabInsert s x).2 = some x := by
  induction s with
  | nil => rfl
  | cons e rest ih =>
    cases e with
    | none => rfl
    | some y => simpa [slabInsert, slabGet] using ih

/-- `slabMarkTried` sets the `already_tried` flag of the addressed slot. -/
theorem slabGet_slabMarkTried (s : Slab) (i : Nat) :
    slabGet (slabMarkTried s i) i =
      (slabGet s i).map fun src => { src with already_tried := true } := by
  induction s generalizing i with
  | nil => simp [slabMarkTried, slabGet]
  | cons e rest ih =>
    cases i with
    | zero => cases e <;> rfl
    | succ j => simpa [slabMarkTried, slabGet] using ih j

/-- The big-integer loop never reads out of bounds when the input is at least
`idx + count` bytes long. -/
theorem scaleBigLoop_not_oob (bytes : List Nat) :
    ∀ count idx shift acc, idx + count ≤ bytes.length →
      (∃ v, scaleBigLoop bytes idx shift acc count = .val v) ∨
        scaleBigLoop bytes idx shift acc count = .overflow := by
  intro count
  induction count with
  | zero => intro idx shift acc _; exact Or.inl ⟨acc, rfl⟩
  | succ n ih =>
    intro idx shift acc hlen
    have hidx : idx < bytes.length := by omega
    rcases hget : bytes.get? idx with _ | b
    · rw [List.get?_eq_none] at hget; omega
    · simp only [scaleBigLoop, hget]
      by_cases hov : b * 2 ^ (shift % 64) < 2 ^ 64
      · rw [if_pos hov]
        exact ih (idx + 1) (shift + 8) (acc ||| b * 2 ^ (shift % 64)) (by omega)
      · rw [if_neg hov]
        exact Or.inr rfl

/-- Bit-level bridge: for disjoint operands, `or` is addition (the mode-`01`
value `(byte1 << 6) | byte0` equals `byte0 + byte1 * 2^6`). -/
theorem lor_shiftLeft_eq_add {n a : Nat} (h : a < 2 ^ n) (b : Nat) :
    (b <<< n) ||| a = a + b * 2 ^ n := by
  apply Nat.eq_of_testBit_eq
  intro j
  rw [Nat.testBit_or, Nat.testBit_shiftLeft,
    show a + b * 2 ^ n = 2 ^ n * b + a by ring,
    Nat.testBit_mul_pow_two_add b h j]
  by_cases hj : j < n
  · simp [hj, Nat.not_le.mpr hj]
  · have hle : n ≤ j := Nat.not_lt.mp hj
    have ha : a < 2 ^ j :=
      lt_of_lt_of_le h (Nat.pow_le_pow_right (by norm_num) hle)
    simp [hj, hle, Nat.testBit_lt_two_pow ha]

/-- A later event list leaves `runtimeCallLoop`'s exits covered: unless the
loop reaches the unimplemented `NextKey` arm, the runtime it returns has its
VM slot populated. -/
theorem runtimeCallLoop_restores (runtime : SuccessfulRuntime)
    (verify : Nat → Except Nat (Option Nat)) :
    ∀ events outcome,
      (runtimeCallLoop runtime verify events outcome).2 ≠ .todoNextKey →
      ∃ p, (runtimeCallLoop runtime verify events outcome).1.virtual_machine =
        some p := by
  intro events
  induction events with
  | nil =>
    intro outcome h
    cases outcome with
    | finishedOk ret proto => exact ⟨proto, rfl⟩
    | finishedErr d proto => exact ⟨proto, rfl⟩
    | nextKey => exact absurd rfl h
  | cons e rest ih =>
    intro outcome h
    cases e with
    | storageGet key paused =>
      rcases hv : verify key with err | v
      · exact ⟨paused, by simp [runtimeCallLoop, hv]⟩
      · have h' : (runtimeCallLoop runtime verify rest outcome).2 ≠ .todoNextKey := by
          simpa [runtimeCallLoop, hv] using h
        simpa [runtimeCallLoop, hv] using ih outcome h'
    | storageRoot =>
      have h' : (runtimeCallLoop runtime verify rest outcome).2 ≠ .todoNextKey := by
        simpa [runtimeCallLoop] using h
      simpa [runtimeCallLoop] using ih outcome h'

/-! Claim theorems. -/

/-- Claim C1: for every `n` in `{0, 1, 63, 64, 16383, 16384, 2^30 - 1, 2^30,
2^63}`, decoding the SCALE-compact encoding of `n` yields `n` back with an
empty remaining-input slice. -/
theorem claim_C1 :
    nom_scale_compact_usize (encode_scale_compact_usize 0) = .ok [] 0 ∧
    nom_scale_compact_usize (encode_scale_compact_usize 1) = .ok [] 1 ∧
    nom_scale_compact_usize (encode_scale_compact_usize 63) = .ok [] 63 ∧
    nom_scale_compact_usize (encode_scale_compact_usize 64) = .ok [] 64 ∧
    nom_scale_compact_usize (encode_scale_compact_usize 16383) = .ok [] 16383 ∧
    nom_scale_compact_usize (encode_scale_compact_usize 16384) = .ok [] 16384 ∧
    nom_scale_compact_usize (encode_scale_compact_usize (2 ^ 30 - 1)) =
      .ok [] (2 ^ 30 - 1) ∧
    nom_scale_compact_usize (encode_scale_compact_usize (2 ^ 30)) =
      .ok [] (2 ^ 30) ∧
    nom_scale_compact_usize (encode_scale_compact_usize (2 ^ 63)) =
      .ok [] (2 ^ 63) := by
  decide

/-- Claim C2: when fragment verification fails, the batch is discarded but the
previously-accepted `(header, finality)` pair is preserved: the state returned
alongside the error still carries `previous_verifier_values = some pv`, and
the error is reported. -/
theorem claim_C2 (s : VerifierState) (e : FragmentError) (pv : Header × Finality)
    (h : s.previous_verifier_values = some pv) :
    (s.next (.error e)).2 = some e ∧
    stateCarriesPreviousValues (s.next (.error e)).1 (some pv) := by
  unfold VerifierState.next warp_sync_request_from_next_source
  rcases hf : slabFindUntried s.sources with _ | i <;>
    simp [hf, stateCarriesPreviousValues, h]

theorem claim_C2_witness :
    (VerifierState.next ⟨⟨0, [], false⟩, ⟨⟨0⟩⟩, 0, [], false, some (1, 2)⟩
      (.error 5)).2 = some 5 ∧
    stateCarriesPreviousValues
      (VerifierState.next ⟨⟨0, [], false⟩, ⟨⟨0⟩⟩, 0, [], false, some (1, 2)⟩
        (.error 5)).1 (some (1, 2)) :=
  claim_C2 ⟨⟨0, [], false⟩, ⟨⟨0⟩⟩, 0, [], false, some (1, 2)⟩ 5 (1, 2) rfl

/-- Claim C3: once the VM prototype has been taken out of the cache slot,
every exit path of the locked call section — success, runtime-call error,
call-start error and storage-proof-verification failure — restores a
prototype into the slot (only the unimplemented `NextKey` arm is excluded). -/
theorem claim_C3 (runtime : SuccessfulRuntime)
    (start : Except (Nat × Nat) (List VmEvent × VmOutcome))
    (verify : Nat → Except Nat (Option Nat)) (vm : Nat)
    (hvm : runtime.virtual_machine = some vm)
    (hres : (recent_best_block_runtime_call_locked runtime start verify).2 ≠
      .todoNextKey) :
    ∃ p, (recent_best_block_runtime_call_locked runtime start
      verify).1.virtual_machine = some p := by
  unfold recent_best_block_runtime_call_locked at hres ⊢
  rw [hvm] at hres ⊢
  rcases start with ⟨err, proto⟩ | ⟨events, outcome⟩
  · exact ⟨proto, rfl⟩
  · exact runtimeCallLoop_restores _ verify events outcome hres

theorem claim_C3_witness :
    ∃ p, (recent_best_block_runtime_call_locked ⟨none, 1, some 7⟩
      (.ok ([.storageGet 1 9], .finishedOk 42 7))
      (fun _ => .ok (some 3))).1.virtual_machine = some p :=
  claim_C3 ⟨none, 1, some 7⟩ (.ok ([.storageGet 1 9], .finishedOk 42 7))
    (fun _ => .ok (some 3)) 7 rfl (by decide)

/-- Claim C4: `handle_response` marks the selected source as tried; on
`some response` it moves to a `Verifier` whose inner verifier is seeded from
the previously-accepted finality (or the anchor's finality when none),
carrying the response's fragments and `is_finished` flag and the same source
id; on `none` it restarts source selection. -/
theorem claim_C4 (r : WarpSyncRequestState) (response : GrandpaWarpSyncResponse)
    (hc : slabContains r.sources r.source_id = true) :
    (slabGet (slabMarkTried r.sources r.source_id) r.source_id).map
      Source.already_tried = some true ∧
    r.handle_response (some response) = .Verifier ⟨InnerVerifier.new
        (match r.previous_verifier_values with
          | some pv => pv.2
          | none => r.state.start_chain_information.finality)
        response.fragments response.is_finished,
      r.state, r.source_id, slabMarkTried r.sources r.source_id,
      response.is_finished, r.previous_verifier_values⟩ ∧
    r.handle_response none = warp_sync_request_from_next_source
      (slabMarkTried r.sources r.source_id) r.state r.previous_verifier_values := by
  refine ⟨?_, ?_, rfl⟩
  · rw [slabGet_slabMarkTried]
    unfold slabContains at hc
    rcases hg : slabGet r.sources r.source_id with _ | src
    · rw [hg] at hc; simp at hc
    · simp
  · unfold WarpSyncRequestState.handle_response
    rcases hpv : r.previous_verifier_values with _ | ⟨hd, fin⟩ <;> simp [hpv]

theorem claim_C4_witness :
    (slabGet (slabMarkTried [some ⟨7, false⟩] 0) 0).map Source.already_tried =
      some true ∧
    WarpSyncRequestState.handle_response ⟨0, [some ⟨7, false⟩], ⟨⟨3⟩⟩, none⟩
      (some ⟨[11], true⟩) = .Verifier ⟨InnerVerifier.new 3 [11] true, ⟨⟨3⟩⟩, 0,
        [some ⟨7, true⟩], true, none⟩ ∧
    WarpSyncRequestState.handle_response ⟨0, [some ⟨7, false⟩], ⟨⟨3⟩⟩, none⟩
      none = warp_sync_request_from_next_source [some ⟨7, true⟩] ⟨⟨3⟩⟩ none :=
  claim_C4 ⟨0, [some ⟨7, false⟩], ⟨⟨3⟩⟩, none⟩ ⟨[11], true⟩ rfl

/-- Claim C5: with every source already tried (vacuously for an empty slab),
source selection parks in `WaitingForSources`; and `add_source` inserts the
new source with `already_tried = false` and returns a `WarpSyncRequest` whose
selected source id is exactly the id of the source just added. -/
theorem claim_C5 (sources : Slab) (state : PreVerificationState)
    (previous_verifier_values : Option (Header × Finality))
    (w : WaitingForSourcesState) (user_data : Nat)
    (hall : slabAllTried sources = true) :
    warp_sync_request_from_next_source sources state previous_verifier_values =
      .WaitingForSources ⟨sources, state, previous_verifier_values⟩ ∧
    (w.add_source user_data).source_id =
      (slabInsert w.sources ⟨user_data, false⟩).2 ∧
    (w.add_source user_data).sources =
      (slabInsert w.sources ⟨user_data, false⟩).1 ∧
    slabGet (w.add_source user_data).sources (w.add_source user_data).source_id =
      some ⟨user_data, false⟩ := by
  refine ⟨?_, rfl, rfl, ?_⟩
  · unfold warp_sync_request_from_next_source
    rw [slabFindUntried_of_allTried sources hall]
  · exact slabGet_slabInsert w.sources ⟨user_data, false⟩

theorem claim_C5_witness :
    warp_sync_request_from_next_source [some ⟨1, true⟩] ⟨⟨0⟩⟩ none =
      .WaitingForSources ⟨[some ⟨1, true⟩], ⟨⟨0⟩⟩, none⟩ ∧
    (WaitingForSourcesState.add_source ⟨[some ⟨1, true⟩], ⟨⟨0⟩⟩, none⟩ 9).source_id =
      (slabInsert [some ⟨1, true⟩] ⟨9, false⟩).2 ∧
    (WaitingForSourcesState.add_source ⟨[some ⟨1, true⟩], ⟨⟨0⟩⟩, none⟩ 9).sources =
      (slabInsert [some ⟨1, true⟩] ⟨9, false⟩).1 ∧
    slabGet (WaitingForSourcesState.add_source ⟨[some ⟨1, true⟩], ⟨⟨0⟩⟩, none⟩ 9).sources
      (WaitingForSourcesState.add_source ⟨[some ⟨1, true⟩], ⟨⟨0⟩⟩, none⟩ 9).source_id =
      some ⟨9, false⟩ :=
  claim_C5 [some ⟨1, true⟩] ⟨⟨0⟩⟩ none ⟨[some ⟨1, true⟩], ⟨⟨0⟩⟩, none⟩ 9 rfl

/-- Claim C6: removing the currently-selected source restarts source selection
over the remaining sources; the pre-verification states (`WarpSyncRequest`,
`Verifier`) keep `previous_verifier_values` unchanged, while the
post-verification states (`VirtualMachineParamsGet`, `StorageGet`, `NextKey`)
restart with `previous_verifier_values = none`. -/
theorem claim_C6 (v : VerifierState) (r : WarpSyncRequestState)
    (vmg : VirtualMachineParamsGetState) (sg : StorageGetState)
    (nk : NextKeyState) :
    ((InProgressGrandpaWarpSync.WarpSyncRequest r).remove_source r.source_id).2 =
      warp_sync_request_from_next_source (slabRemove r.sources r.source_id).1
        r.state r.previous_verifier_values ∧
    ((InProgressGrandpaWarpSync.Verifier v).remove_source
        v.warp_sync_source_id).2 =
      warp_sync_request_from_next_source
        (slabRemove v.sources v.warp_sync_source_id).1 v.state
        v.previous_verifier_values ∧
    ((InProgressGrandpaWarpSync.VirtualMachineParamsGet vmg).remove_source
        vmg.state.warp_sync_source_id).2 =
      warp_sync_request_from_next_source
        (slabRemove vmg.state.sources vmg.state.warp_sync_source_id).1
        ⟨vmg.state.start_chain_information⟩ none ∧
    ((InProgressGrandpaWarpSync.StorageGet sg).remove_source
        sg.state.warp_sync_source_id).2 =
      warp_sync_request_from_next_source
        (slabRemove sg.state.sources sg.state.warp_sync_source_id).1
        ⟨sg.state.start_chain_information⟩ none ∧
    ((InProgressGrandpaWarpSync.NextKey nk).remove_source
        nk.state.warp_sync_source_id).2 =
      warp_sync_request_from_next_source
        (slabRemove nk.state.sources nk.state.warp_sync_source_id).1
        ⟨nk.state.start_chain_information⟩ none := by
  refine ⟨?_, ?_, ?_, ?_, ?_⟩ <;>
    simp [InProgressGrandpaWarpSync.remove_source,
      WarpSyncRequestState.remove_source, VerifierState.remove_source,
      PostVerificationState.remove_source]

/-- Claim C7: evaluation of the decoder on big-integer-mode inputs. The
canonicity check holds: the 6-byte input `07 00 00 00 00 00` (one extra value
byte, final value byte zero) is rejected. The overflow check, however, does
not: the 10-byte input `17 00 00 00 00 00 00 00 00 02` declares nine value
bytes and encodes `2 * 2^64` (beyond `usize`), yet decodes to `Ok(2)` because
the ninth value byte is combined with `1 << 64`, whose shift amount wraps to
`0` (release semantics; a debug build panics on the shift overflow instead of
returning a parse error). -/
theorem claim_C7_eval :
    nom_scale_compact_usize [0x07, 0x00, 0x00, 0x00, 0x00, 0x00] =
      .err .Satisfy ∧
    nom_scale_compact_usize [0x17, 0x00, 0x00, 0x00, 0x00, 0x00, 0x00, 0x00,
      0x00, 0x02] = .ok [] 2 := by
  decide

/-- Claim C8: mode `00` decodes one byte to its upper six bits, and mode `01`
decodes two bytes to the upper six bits of byte 0 plus byte 1 shifted left by
six, consuming exactly one and two bytes respectively. -/
theorem claim_C8 (b0 b1 : Nat) (rest : List Nat) (h0 : b0 < 256)
    (h1 : b1 < 256) :
    (b0 % 4 = 0 → nom_scale_compact_usize (b0 :: rest) = .ok rest (b0 / 4)) ∧
    (b0 % 4 = 1 → nom_scale_compact_usize (b0 :: b1 :: rest) =
      .ok rest (b0 / 4 + b1 * 2 ^ 6)) := by
  constructor
  · intro h
    unfold nom_scale_compact_usize
    simp only [List.get?_cons_zero]
    split
    · rfl
    all_goals (exfalso; omega)
  · intro h
    unfold nom_scale_compact_usize
    simp only [List.get?_cons_zero]
    split
    · exfalso; omega
    · rw [if_neg (by simp)]
      simp only [List.get?_cons_succ, List.get?_cons_zero]
      rw [lor_shiftLeft_eq_add (show b0 / 4 < 2 ^ 6 by omega) b1]
      rfl
    all_goals (exfalso; omega)

theorem claim_C8_witness :
    nom_scale_compact_usize [0xFC] = .ok [] (0xFC / 4) ∧
    nom_scale_compact_usize [0x01, 0x01] = .ok [] (0x01 / 4 + 0x01 * 2 ^ 6) :=
  ⟨(claim_C8 0xFC 0x01 [] (by decide) (by decide)).1 (by decide),
    (claim_C8 0x01 0x01 [] (by decide) (by decide)).2 (by decide)⟩

/-- Claim C10: the decoder is total on every input: it returns either a
success whose remaining slice is a suffix (a `drop`) of the input, or a parse
error tagged `Eof` or `Satisfy` — never the out-of-bounds trap. -/
theorem claim_C10 (bytes : List Nat) :
    (∃ k v, nom_scale_compact_usize bytes = .ok (bytes.drop k) v) ∨
    nom_scale_compact_usize bytes = .err .Eof ∨
    nom_scale_compact_usize bytes = .err .Satisfy := by
  cases bytes with
  | nil => exact Or.inr (Or.inl rfl)
  | cons b0 rest =>
    unfold nom_scale_compact_usize
    simp only [List.get?_cons_zero]
    split
    · exact Or.inl ⟨1, b0 / 4, rfl⟩
    · by_cases hlen : (b0 :: rest).length < 2
      · rw [if_pos hlen]
        exact Or.inr (Or.inl rfl)
      · rw [if_neg hlen]
        rcases hg1 : (b0 :: rest).get? 1 with _ | b1
        · rw [List.get?_eq_none] at hg1
          exact absurd (by omega) hlen
        · exact Or.inl ⟨2, _, rfl⟩
    · by_cases hlen : (b0 :: rest).length < 4
      · rw [if_pos hlen]
        exact Or.inr (Or.inl rfl)
      · rw [if_neg hlen]
        rcases hg1 : (b0 :: rest).get? 1 with _ | b1
        · rw [List.get?_eq_none] at hg1
          exact absurd (by omega) hlen
        rcases hg2 : (b0 :: rest).get? 2 with _ | b2
        · rw [List.get?_eq_none] at hg2
          exact absurd (by omega) hlen
        rcases hg3 : (b0 :: rest).get? 3 with _ | b3
        · rw [List.get?_eq_none] at hg3
          exact absurd (by omega) hlen
        dsimp only
        by_cases hov : (b3 <<< 22) ||| (b2 <<< 14) ||| (b1 <<< 6) ||| (b0 / 4) < 2 ^ 64
        · rw [if_pos hov]
          exact Or.inl ⟨4, _, rfl⟩
        · rw [if_neg hov]
          exact Or.inr (Or.inr rfl)
    · by_cases hlen : (b0 :: rest).length < b0 / 4 + 4 + 1
      · rw [if_pos hlen]
        exact Or.inr (Or.inl rfl)
      · rw [if_neg hlen]
        rcases hget : (b0 :: rest).get? (b0 / 4 + 4) with _ | hb
        · rw [List.get?_eq_none] at hget
          omega
        · dsimp only
          by_cases hzb : hb = 0
          · rw [if_pos hzb]
            exact Or.inr (Or.inr rfl)
          · rw [if_neg hzb]
            rcases scaleBigLoop_not_oob (b0 :: rest) (b0 / 4 + 4) 1 0 0
                (by omega) with ⟨v, hv⟩ | hov
            · rw [hv]
              exact Or.inl ⟨b0 / 4 + 4 + 1, v, rfl⟩
            · rw [hov]
              exact Or.inr (Or.inr rfl)
    · exfalso; omega

/-- Claim C9: when the downloaded `:code` and `:heappages` equal the cached
values byte-for-byte (absence included), the runtime is not rebuilt, the code
and heap-pages caches are unchanged, no runtime-version subscriber receives an
item, and only the `runtime_block_*` fields (and best-block tracking) move. -/
theorem claim_C9 (lkr : LatestKnownRuntime) (flag : Bool) (hdr : HeaderInfo)
    (new_code new_heap_pages : Option (List Nat)) (near : Bool)
    (send_ok : Nat → Bool)
    (from_params : Option (List Nat) → Option (List Nat) →
      Except Unit SuccessfulRuntime)
    (hcode : new_code = lkr.runtime_code)
    (hheap : new_heap_pages = lkr.heap_pages) :
    (trackingLoopIteration lkr flag hdr (.ok (new_code, new_heap_pages)) near
        send_ok from_params).state.runtime = lkr.runtime ∧
    (trackingLoopIteration lkr flag hdr (.ok (new_code, new_heap_pages)) near
        send_ok from_params).state.runtime_code = lkr.runtime_code ∧
    (trackingLoopIteration lkr flag hdr (.ok (new_code, new_heap_pages)) near
        send_ok from_params).state.heap_pages = lkr.heap_pages ∧
    (trackingLoopIteration lkr flag hdr (.ok (new_code, new_heap_pages)) near
        send_ok from_params).runtime_version_notifications = [] ∧
    (trackingLoopIteration lkr flag hdr (.ok (new_code, new_heap_pages)) near
        send_ok from_params).state.runtime_version_subscriptions =
      lkr.runtime_version_subscriptions ∧
    (trackingLoopIteration lkr flag hdr (.ok (new_code, new_heap_pages)) near
        send_ok from_params).state.runtime_block_hash = hdr.hash ∧
    (trackingLoopIteration lkr flag hdr (.ok (new_code, new_heap_pages)) near
        send_ok from_params).state.runtime_block_height = hdr.number ∧
    (trackingLoopIteration lkr flag hdr (.ok (new_code, new_heap_pages)) near
        send_ok from_params).state.runtime_block_state_root = hdr.state_root ∧
    (trackingLoopIteration lkr flag hdr (.ok (new_code, new_heap_pages)) near
        send_ok from_params).runtime_matches_best_block = true := by
  subst hcode hheap
  simp [trackingLoopIteration]

theorem claim_C9_witness :
    (trackingLoopIteration ⟨.error (), none, none, 0, 0, 0, [4], [5], false⟩
        false ⟨10, 11, 12⟩ (.ok (none, none)) true (fun _ => true)
        (fun _ _ => .error ())).state.runtime = .error () ∧
    (trackingLoopIteration ⟨.error (), none, none, 0, 0, 0, [4], [5], false⟩
        false ⟨10, 11, 12⟩ (.ok (none, none)) true (fun _ => true)
        (fun _ _ => .error ())).state.runtime_code = none ∧
    (trackingLoopIteration ⟨.error (), none, none, 0, 0, 0, [4], [5], false⟩
        false ⟨10, 11, 12⟩ (.ok (none, none)) true (fun _ => true)
        (fun _ _ => .error ())).state.heap_pages = none ∧
    (trackingLoopIteration ⟨.error (), none, none, 0, 0, 0, [4], [5], false⟩
        false ⟨10, 11, 12⟩ (.ok (none, none)) true (fun _ => true)
        (fun _ _ => .error ())).runtime_version_notifications = [] ∧
    (trackingLoopIteration ⟨.error (), none, none, 0, 0, 0, [4], [5], false⟩
        false ⟨10, 11, 12⟩ (.ok (none, none)) true (fun _ => true)
        (fun _ _ => .error ())).state.runtime_version_subscriptions = [4] ∧
    (trackingLoopIteration ⟨.error (), none, none, 0, 0, 0, [4], [5], false⟩
        false ⟨10, 11, 12⟩ (.ok (none, none)) true (fun _ => true)
        (fun _ _ => .error ())).state.runtime_block_hash = 10 ∧
    (trackingLoopIteration ⟨.error (), none, none, 0, 0, 0, [4], [5], false⟩
        false ⟨10, 11, 12⟩ (.ok (none, none)) true (fun _ => true)
        (fun _ _ => .error ())).state.runtime_block_height = 11 ∧
    (trackingLoopIteration ⟨.error (), none, none, 0, 0, 0, [4], [5], false⟩
        false ⟨10, 11, 12⟩ (.ok (none, none)) true (fun _ => true)
        (fun _ _ => .error ())).state.runtime_block_state_root = 12 ∧
    (trackingLoopIteration ⟨.error (), none, none, 0, 0, 0, [4], [5], false⟩
        false ⟨10, 11, 12⟩ (.ok (none, none)) true (fun _ => true)
        (fun _ _ => .error ())).runtime_matches_best_block = true :=
  claim_C9 ⟨.error (), none, none, 0, 0, 0, [4], [5], false⟩ false ⟨10, 11, 12⟩
    none none true (fun _ => true) (fun _ _ => .error ()) rfl rfl
